import Mathlib

/-!
Verification development for the DataWeb backend (Express + SQLite + multer).

The definitions below are a shallow embedding of the JavaScript source:

* `src/backend/routes/auth.js`    — registration / login handlers
* `src/backend/routes/dataset.js` — multer storage config, `extractSchema`,
                                    the upload handler and the dataset listing
* `src/backend/routes/chat.js`    — the ask-question handler and history read
* `src/backend/database/index.js` — SQLite schema and the public health probe
* `src/backend/middleware/auth.js`— JWT verification (not needed by the claims
                                    settled here beyond the identity it attaches)

Machine integers do not occur (ids and timestamps are JS numbers used as
counters, modelled as `Nat`); SQLite fallible collaborators are modelled with
explicit failure flags / `Option` results.
-/

namespace Dataweb

/-! ## JavaScript string primitives used by the source -/

/-- The characters removed by `String.prototype.trim` (ECMA-262 white space
and line terminators). -/
def isJsWhitespace (c : Char) : Bool :=
  c = ' ' || c = '\t' || c = '\n' || c = '\r' ||
  c.toNat = 0x0B || c.toNat = 0x0C || c.toNat = 0xA0 || c.toNat = 0x1680 ||
  (0x2000 ≤ c.toNat && c.toNat ≤ 0x200A) ||
  c.toNat = 0x2028 || c.toNat = 0x2029 || c.toNat = 0x202F ||
  c.toNat = 0x205F || c.toNat = 0x3000 || c.toNat = 0xFEFF

/-- JS `s.trim()`. -/
def jsTrim (s : String) : String :=
  String.mk (((s.data.dropWhile isJsWhitespace).reverse.dropWhile isJsWhitespace).reverse)

/-- JS `s === ''` / emptiness of a string. -/
def strIsEmpty (s : String) : Bool :=
  s.data.isEmpty

/-- JS `s.toLowerCase()` on the ASCII range (the only range that can affect the
`.csv` suffix test it is used for). -/
def jsToLower (s : String) : String :=
  String.mk (s.data.map (fun c => if 'A' ≤ c && c ≤ 'Z' then Char.ofNat (c.toNat + 32) else c))

/-- JS `s.endsWith(suffix)`. -/
def jsEndsWith (s suffix : String) : Bool :=
  s.data.reverse.take suffix.data.length == suffix.data.reverse

/-- Split a character list on a delimiter character, JS `String.prototype.split`
style: the result always has one more piece than there are delimiters, and the
empty input yields `[[]]`. -/
def splitOnChar (delim : Char) : List Char → List (List Char)
  | [] => [[]]
  | c :: rest =>
    if c = delim then [] :: splitOnChar delim rest
    else
      match splitOnChar delim rest with
      | s :: ss => (c :: s) :: ss
      | [] => [[c]]

/-- JS `s.split(delim)` for a one-character delimiter. -/
def splitString (delim : Char) (s : String) : List String :=
  (splitOnChar delim s.data).map String.mk

/-! ## JSON values and `JSON.parse` / `JSON.stringify`

`chat.js` line 40 and `dataset.js` line 123 run `JSON.parse` on the stored
`schema_json` column, and `dataset.js` line 88 runs `JSON.stringify` on the
extracted schema.  Numeric literals are kept as their source text: the
application never uses a JSON number's value, only the shape of the document. -/

/-- A left-brace character, kept out of string literals. -/
def lbrace : Char := Char.ofNat 0x7B

/-- A right-brace character, kept out of string literals. -/
def rbrace : Char := Char.ofNat 0x7D

inductive Json where
  | null
  | bool (b : Bool)
  | num (lit : String)
  | str (s : String)
  | arr (elems : List Json)
  | obj (fields : List (String × Json))
deriving Repr

/-- JSON white space (RFC 8259: space, tab, newline, carriage return). -/
def isJsonWs (c : Char) : Bool :=
  c = ' ' || c = '\t' || c = '\n' || c = '\r'

def skipWs (cs : List Char) : List Char :=
  cs.dropWhile isJsonWs

/-- Value of one hexadecimal digit (0-9, a-f, A-F), by code point. -/
def hexDigitVal (c : Char) : Option Nat :=
  let n := c.toNat
  if 48 ≤ n ∧ n ≤ 57 then some (n - 48)
  else if 97 ≤ n ∧ n ≤ 102 then some (n - 87)
  else if 65 ≤ n ∧ n ≤ 70 then some (n - 55)
  else none

/-- Decoding table for the one-character JSON escapes. -/
def simpleEscapePairs : List (Char × Char) :=
  [('"', '"'), ('\\', '\\'), ('/', '/'), ('b', Char.ofNat 8), ('f', Char.ofNat 12),
   ('n', '\n'), ('r', '\r'), ('t', '\t')]

/-- Parse the body of a JSON string literal (the opening quote already
consumed); returns the decoded characters and the input following the closing
quote.  Raw control characters below 0x20 are rejected, as `JSON.parse` does. -/
def parseStringBody : Nat → List Char → Option (List Char × List Char)
  | 0, _ => none
  | fuel + 1, cs =>
    match cs with
    | [] => none
    | c :: rest =>
      if c = '"' then some ([], rest)
      else if c = '\\' then
        match rest with
        | [] => none
        | e :: rest2 =>
          let dec : Option (Char × List Char) :=
            if e = 'u' then
              match rest2 with
              | h1 :: h2 :: h3 :: h4 :: rest3 =>
                match ([h1, h2, h3, h4].mapM hexDigitVal) with
                | some vs => some (Char.ofNat (vs.foldl (fun a v => 16 * a + v) 0), rest3)
                | none => none
              | _ => none
            else
              match simpleEscapePairs.lookup e with
              | some ch => some (ch, rest2)
              | none => none
          match dec with
          | none => none
          | some (ch, rest3) => (parseStringBody fuel rest3).map (fun p => (ch :: p.1, p.2))
      else if c.toNat < 32 then none
      else (parseStringBody fuel rest).map (fun p => (c :: p.1, p.2))

/-- Integer part of a JSON number: `0`, or a nonzero digit followed by digits. -/
def parseIntPart : List Char → Option (List Char × List Char)
  | [] => none
  | c :: rest =>
    if c = '0' then some (['0'], rest)
    else if c.isDigit then
      let ds := rest.takeWhile Char.isDigit
      some (c :: ds, rest.drop ds.length)
    else none

/-- Optional fraction part of a JSON number. -/
def parseFrac : List Char → Option (List Char × List Char)
  | '.' :: rest =>
    let ds := rest.takeWhile Char.isDigit
    if ds.isEmpty then none else some ('.' :: ds, rest.drop ds.length)
  | cs => some ([], cs)

/-- Optional exponent part of a JSON number. -/
def parseExp : List Char → Option (List Char × List Char)
  | [] => some ([], [])
  | c :: rest =>
    if c = 'e' ∨ c = 'E' then
      let sr : List Char × List Char :=
        match rest with
        | s :: r2 => if s = '+' ∨ s = '-' then ([s], r2) else ([], rest)
        | [] => ([], rest)
      let ds := sr.2.takeWhile Char.isDigit
      if ds.isEmpty then none else some (c :: (sr.1 ++ ds), sr.2.drop ds.length)
    else some ([], c :: rest)

/-- Parse a JSON number literal, keeping its text. -/
def parseNumber (cs : List Char) : Option (String × List Char) :=
  let sgn : List Char × List Char :=
    match cs with
    | c :: rest => if c = '-' then (['-'], rest) else ([], cs)
    | [] => ([], cs)
  match parseIntPart sgn.2 with
  | none => none
  | some (ip, cs2) =>
    match parseFrac cs2 with
    | none => none
    | some (fp, cs3) =>
      match parseExp cs3 with
      | none => none
      | some (ep, cs4) => some (String.mk (sgn.1 ++ ip ++ fp ++ ep), cs4)

mutual

def parseValue : Nat → List Char → Option (Json × List Char)
  | 0, _ => none
  | fuel + 1, cs =>
    match skipWs cs with
    | [] => none
    | c :: rest =>
      if c = 'n' then
        match rest with
        | 'u' :: 'l' :: 'l' :: r => some (.null, r)
        | _ => none
      else if c = 't' then
        match rest with
        | 'r' :: 'u' :: 'e' :: r => some (.bool true, r)
        | _ => none
      else if c = 'f' then
        match rest with
        | 'a' :: 'l' :: 's' :: 'e' :: r => some (.bool false, r)
        | _ => none
      else if c = '"' then
        (parseStringBody (fuel + 1) rest).map (fun p => (.str (String.mk p.1), p.2))
      else if c = '[' then
        match skipWs rest with
        | c2 :: r2 =>
          if c2 = ']' then some (.arr [], r2)
          else (parseElems fuel (skipWs rest)).map (fun p => (.arr p.1, p.2))
        | [] => none
      else if c = lbrace then
        match skipWs rest with
        | c2 :: r2 =>
          if c2 = rbrace then some (.obj [], r2)
          else (parseMembers fuel (skipWs rest)).map (fun p => (.obj p.1, p.2))
        | [] => none
      else
        (parseNumber (c :: rest)).map (fun p => (.num p.1, p.2))

def parseElems : Nat → List Char → Option (List Json × List Char)
  | 0, _ => none
  | fuel + 1, cs =>
    match parseValue fuel cs with
    | none => none
    | some (v, rest) =>
      match skipWs rest with
      | [] => none
      | c :: r2 =>
        if c = ',' then (parseElems fuel r2).map (fun p => (v :: p.1, p.2))
        else if c = ']' then some ([v], r2)
        else none

def parseMembers : Nat → List Char → Option (List (String × Json) × List Char)
  | 0, _ => none
  | fuel + 1, cs =>
    match skipWs cs with
    | [] => none
    | c :: rest =>
      if c = '"' then
        match parseStringBody (fuel + 1) rest with
        | none => none
        | some (k, r1) =>
          match skipWs r1 with
          | ':' :: r2 =>
            match parseValue fuel r2 with
            | none => none
            | some (v, r3) =>
              match skipWs r3 with
              | [] => none
              | c2 :: r4 =>
                if c2 = ',' then
                  (parseMembers fuel r4).map (fun p => ((String.mk k, v) :: p.1, p.2))
                else if c2 = rbrace then some ([(String.mk k, v)], r4)
                else none
          | _ => none
      else none

end

/-- Model of `JSON.parse`: parses one JSON document with optional surrounding white
space.  Returns `none` where `JSON.parse` would throw `SyntaxError`. -/
def parseJson (s : String) : Option Json :=
  match parseValue (2 * s.data.length + 8) s.data with
  | some (j, rest) => if (skipWs rest).isEmpty then some j else none
  | none => none

/-- Model of `JSON.parse(x)` coerces a non-string argument to string first: SQLite
`NULL` arrives in JS as `null`, and `String(null) = "null"`. -/
def jsParseArg : Option String → String
  | none => "null"
  | some s => s

/-- Object member access with the `JSON.parse` duplicate-key rule: the last
binding of a key wins. -/
def jsonField (fields : List (String × Json)) (key : String) : Option Json :=
  match fields with
  | [] => none
  | (k, v) :: rest =>
    match jsonField rest key with
    | some v2 => some v2
    | none => if k == key then some v else none

/-- Truthiness of a JSON value under JavaScript coercion (`null`, `false`,
zero and the empty string are falsy; objects and arrays are always truthy). -/
def numLitIsZero (s : String) : Bool :=
  ((s.data.filter (fun c => c ≠ '-')).takeWhile (fun c => c ≠ 'e' && c ≠ 'E')).all
    (fun c => c = '0' || c = '.')

def jsFalsy : Json → Bool
  | .null => true
  | .bool b => !b
  | .num lit => numLitIsZero lit
  | .str s => strIsEmpty s
  | .arr _ => false
  | .obj _ => false

/-- JS `x || dflt` for an optional JSON value (`undefined` and falsy values fall
through to the default). -/
def jsOrJson (o : Option Json) (dflt : Json) : Json :=
  match o with
  | some j => if jsFalsy j then dflt else j
  | none => dflt

/-- JS `x || null` for an optional string (the empty string is falsy). -/
def jsOrNullStr (o : Option String) : Option String :=
  match o with
  | some s => if strIsEmpty s then none else some s
  | none => none

/-- JS falsiness of an optional number (absent, `null` and `0` are falsy). -/
def jsFalsyNat (o : Option Nat) : Bool :=
  match o with
  | none => true
  | some n => n == 0

/-- JS falsiness of an optional string (absent, `null` and `""` are falsy). -/
def jsFalsyStr (o : Option String) : Bool :=
  match o with
  | none => true
  | some s => strIsEmpty s

/-! ## Data model — `src/backend/database/init.sql`

Each table is a list of rows in rowid (insertion) order together with the
`AUTOINCREMENT` counter for the next surrogate id.  `DATETIME` values are
opaque instants modelled as `Nat`. -/

structure User where
  id : Nat
  username : String
  password_hash : String
  created_at : Nat
deriving DecidableEq, Repr

/-- A row of `datasets`.  `file_path` holds the resolved absolute path stored
by the upload handler, as a list of path segments; `schema_json` is the
nullable TEXT column holding the stringified schema. -/
structure Dataset where
  id : Nat
  user_id : Nat
  file_path : List String
  original_name : String
  schema_json : Option String
  uploaded_at : Nat
deriving DecidableEq, Repr

/-- A row of `chat_history`; `response` and `code` are nullable TEXT. -/
structure ChatHistoryEntry where
  id : Nat
  user_id : Nat
  dataset_id : Nat
  query : String
  response : Option String
  code : Option String
  created_at : Nat
deriving DecidableEq, Repr

structure DB where
  users : List User
  datasets : List Dataset
  chat_history : List ChatHistoryEntry
  next_dataset_id : Nat
  next_history_id : Nat
deriving DecidableEq, Repr

/-! ## Artifact store — `src/backend/routes/dataset.js`

Filesystem paths are modelled as lists of segments rooted at the backend
directory (`path.join(__dirname, '..') = <root>/backend`).  `path.resolve`
normalisation is `resolveSegs`. -/

/-- The allow-list of the sanitizing regex `[^a-zA-Z0-9._-]` in the multer
`filename` callback (dataset.js line 21). -/
def isAllowedFileChar (c : Char) : Bool :=
  c.isAlphanum || c = '.' || c = '_' || c = '-'

/-- JS `file.originalname.replace(/[^a-zA-Z0-9._-]/g, '_')`. -/
def sanitizeName (s : String) : String :=
  String.mk (s.data.map (fun c => if isAllowedFileChar c then c else '_'))

/-- The stored filename `` `${Date.now()}_${safeName}` `` (dataset.js line 22);
`ts` is the `Date.now()` millisecond count. -/
def uniqueName (ts : Nat) (orig : String) : String :=
  Nat.repr ts ++ "_" ++ sanitizeName orig

/-- The per-user isolated upload directory
`path.join(__dirname, '..', 'uploads', 'user_' + id)` (dataset.js line 15),
as segments below the backend root. -/
def userDirSegs (uid : Nat) : List String :=
  ["backend", "uploads", "user_" ++ Nat.repr uid]

/-- JS `path.resolve` normalisation of further segments against a base:
empty and `.` segments vanish, `..` pops, anything else descends. -/
def resolveSegs (base : List String) : List String → List String
  | [] => base
  | seg :: rest =>
    if seg = "" ∨ seg = "." then resolveSegs base rest
    else if seg = ".." then resolveSegs base.dropLast rest
    else resolveSegs (base ++ [seg]) rest

/-- The resolved absolute path of the stored upload,
`path.resolve(req.file.path)` (dataset.js line 70): the multer destination
directory joined with the generated filename, normalised. -/
def storedPathSegs (uid ts : Nat) (orig : String) : List String :=
  resolveSegs (userDirSegs uid) (splitOnChar '/' (uniqueName ts orig).data |>.map String.mk)

/-- The guard `filePath.startsWith(safeBase)` (dataset.js line 75), at the
granularity of path segments. -/
def segsStartWith (base p : List String) : Bool :=
  match base, p with
  | [], _ => true
  | _ :: _, [] => false
  | b :: bs, x :: xs => b == x && segsStartWith bs xs

/-- The decoded column schema `{ columns }`. -/
structure Schema where
  columns : List String
deriving DecidableEq, Repr

/-- JS `col.trim().replace(/^"|"$/g, '')` (dataset.js line 46): the global regex
with the two anchored alternatives removes at most one leading and one
trailing double quote. -/
def stripQuotes (s : String) : String :=
  let afterLead := if s.data.head? = some '"' then s.data.tail else s.data
  String.mk (if afterLead.getLast? = some '"' then afterLead.dropLast else afterLead)

/-- JS `content.split('\n')[0]` — the text before the first newline. -/
def firstLine (s : String) : String :=
  String.mk (s.data.takeWhile (fun c => c ≠ '\n'))

/-- Function `extractSchema` (dataset.js lines 42-48): first line of the file, split on
commas, each field trimmed and stripped of surrounding quotes. -/
def extractSchema (content : String) : Schema :=
  ⟨(splitString ',' (firstLine content)).map (fun col => stripQuotes (jsTrim col))⟩

/-- One escaped character of `JSON.stringify` string output. -/
def escapeJsonChar (c : Char) : List Char :=
  if c = '"' then ['\\', '"']
  else if c = '\\' then ['\\', '\\']
  else if c = '\x08' then ['\\', 'b']
  else if c = '\t' then ['\\', 't']
  else if c = '\n' then ['\\', 'n']
  else if c = '\x0c' then ['\\', 'f']
  else if c = '\r' then ['\\', 'r']
  else if c.toNat < 32 then
    ['\\', 'u', '0', '0', Nat.digitChar (c.toNat / 16), Nat.digitChar (c.toNat % 16)]
  else [c]

/-- Model of `JSON.stringify` of a string. -/
def quoteJson (s : String) : String :=
  "\"" ++ String.mk (s.data.flatMap escapeJsonChar) ++ "\""

/-- Join strings with a separator (`Array.prototype.join` used internally by
`JSON.stringify` for array elements). -/
def joinWith (sep : String) : List String → String
  | [] => ""
  | [x] => x
  | x :: xs => x ++ sep ++ joinWith sep xs

/-- Model of `JSON.stringify(schema)` for the extracted `{ columns }` object
(dataset.js line 88). -/
def stringifySchema (sc : Schema) : String :=
  "\x7b\"columns\":[" ++ joinWith "," (sc.columns.map quoteJson) ++ "]\x7d"

/-- The inputs of one upload request: the authenticated user, the declared
original filename, the file's bytes as text, its size, and the `Date.now()`
instant of the request. -/
structure UploadReq where
  uid : Nat
  originalname : String
  content : String
  size : Nat
  ts : Nat
deriving DecidableEq, Repr

inductive UploadRes where
  | created (dsId : Nat) (original_name : String) (schema : Schema)
  | badRequest (msg : String)
  | payloadTooLarge (msg : String)
  | serverError (msg : String)
deriving DecidableEq, Repr

/-- JS `limits: { fileSize: 10 * 1024 * 1024 }` (dataset.js line 29). -/
def MAX_FILE_SIZE : Nat := 10 * 1024 * 1024

/-- The upload handler (dataset.js lines 53-109).  The triple returned is the
HTTP outcome, the database afterwards, and the location of the file left on
disk by the request (`none` when no file was kept).  `insertFails` models the
SQLite `INSERT` throwing, which the handler turns into a 500.

Branches, in source order: the multer `fileFilter` extension check, the multer
`LIMIT_FILE_SIZE` ceiling, the path-traversal guard (which deletes the file),
the schema validation, then metadata persistence. -/
def uploadPost (db : DB) (r : UploadReq) (insertFails : Bool) :
    UploadRes × DB × Option (List String) :=
  if !(jsEndsWith (jsToLower r.originalname) ".csv") then
    (.badRequest "Only CSV files are allowed", db, none)
  else if MAX_FILE_SIZE < r.size then
    (.payloadTooLarge "File too large — 10 MB max", db, none)
  else
    let filePath := storedPathSegs r.uid r.ts r.originalname
    let safeBase := userDirSegs r.uid
    if !(segsStartWith safeBase filePath) then
      (.badRequest "Invalid file path detected", db, none)
    else
      let schema := extractSchema r.content
      if schema.columns.isEmpty ∨ schema.columns.head? = some "" then
        (.badRequest "CSV has no valid column headers", db, some filePath)
      else if insertFails then
        (.serverError "Failed to process upload", db, some filePath)
      else
        let ds : Dataset :=
          ⟨db.next_dataset_id, r.uid, filePath, r.originalname,
           some (stringifySchema schema), r.ts⟩
        (.created ds.id r.originalname schema,
         { db with datasets := db.datasets ++ [ds],
                   next_dataset_id := db.next_dataset_id + 1 },
         some filePath)

/-- A row of the dataset listing response (dataset.js lines 114-131):
the selected columns plus the decoded schema. -/
structure DatasetListRow where
  id : Nat
  original_name : String
  schema_json : Option String
  uploaded_at : Nat
  schema : Json
deriving Repr

/-- SQL `ORDER BY uploaded_at DESC` comparison. -/
def byUploadedDesc (a b : Dataset) : Prop := b.uploaded_at ≤ a.uploaded_at

instance : DecidableRel byUploadedDesc := fun _ _ => Nat.decLe _ _

instance : IsTotal Dataset byUploadedDesc := ⟨fun a b => Nat.le_total b.uploaded_at a.uploaded_at⟩

instance : IsTrans Dataset byUploadedDesc := ⟨fun _ _ _ h1 h2 => Nat.le_trans h2 h1⟩

/-- JS `datasets.map(d => ({...d, schema: JSON.parse(d.schema_json)}))`: the first
row whose stored document fails to parse throws, turning the whole listing
into a 500 (`none`). -/
def parseListRows : List Dataset → Option (List DatasetListRow)
  | [] => some []
  | d :: rest =>
    match parseJson (jsParseArg d.schema_json) with
    | none => none
    | some j =>
      match parseListRows rest with
      | none => none
      | some rows => some (⟨d.id, d.original_name, d.schema_json, d.uploaded_at, j⟩ :: rows)

/-- Endpoint `GET /api/upload/datasets` (dataset.js lines 114-131): the caller's rows
newest first, schemas decoded; `none` is the 500 response. -/
def listDatasets (db : DB) (uid : Nat) : Option (List DatasetListRow) :=
  parseListRows (List.insertionSort byUploadedDesc (db.datasets.filter (fun d => d.user_id == uid)))

/-! ## Query orchestrator — `src/backend/routes/chat.js` -/

/-- The body of a successful `/analyze` response from the Python service:
`{ answer, data?, code?, chart_type? }`. -/
structure AnalyzeResponse where
  answer : Option String
  data : Option Json
  code : Option String
  chart_type : Option String
deriving Repr

/-- The possible outcomes of the `axios.post` round-trip: a response, the
10-second timeout (`ECONNABORTED`), a refused connection (`ECONNREFUSED`), or
any other fault. -/
inductive Upstream where
  | success (r : AnalyzeResponse)
  | timeout
  | connRefused
  | otherFault
deriving Repr

/-- The JSON body of a 200 chat response (chat.js lines 66-71). -/
structure ChatSuccessBody where
  answer : Option String
  data : Json
  code : String
  chart_type : Option String
deriving Repr

inductive ChatRes where
  | ok (body : ChatSuccessBody)
  | badRequest (msg : String)
  | notFound (msg : String)
  | gatewayTimeout (msg : String)
  | serviceUnavailable (msg : String)
  | serverError (msg : String)
deriving Repr

/-- Result of one `POST /api/chat` request: the HTTP outcome, the database
afterwards, and whether the upstream analysis service was contacted. -/
structure ChatOutcome where
  res : ChatRes
  db : DB
  upstreamCalled : Bool
deriving Repr

/-- The schema-shape guard (chat.js line 43):
`!schema || !Array.isArray(schema.columns) || schema.columns.length === 0`
passes only for an object whose `columns` member is a nonempty array (every
falsy or non-object value lacks a `columns` array member). -/
def schemaColumnsOk (j : Json) : Bool :=
  match j with
  | .obj fields =>
    match jsonField fields "columns" with
    | some (.arr xs) => !xs.isEmpty
    | _ => false
  | _ => false

/-- Endpoint `POST /api/chat` (chat.js lines 12-83).  `uid` is the authenticated
identity, `up` the behaviour of the analysis service for this request, `now`
the instant recorded by `CURRENT_TIMESTAMP`.  The `typeof question !==
'string'` arm of the guard cannot fire here because `question`, when present,
is a string by type. -/
def chatPost (db : DB) (uid : Nat) (dataset_id : Option Nat) (question : Option String)
    (up : Upstream) (now : Nat) : ChatOutcome :=
  if jsFalsyNat dataset_id || jsFalsyStr question then
    ⟨.badRequest "dataset_id and question are required", db, false⟩
  else
    let q := question.getD ""
    let did := dataset_id.getD 0
    if strIsEmpty (jsTrim q) then
      ⟨.badRequest "Question must be a non-empty string", db, false⟩
    else if 500 < q.length then
      ⟨.badRequest "Question too long — 500 characters max", db, false⟩
    else
      match db.datasets.find? (fun d => d.id == did && d.user_id == uid) with
      | none => ⟨.notFound "Dataset not found", db, false⟩
      | some d =>
        match parseJson (jsParseArg d.schema_json) with
        | none =>
          -- JSON.parse threw; caught at line 72 with no transport error code
          ⟨.serverError "Internal server error", db, false⟩
        | some schema =>
          if !(schemaColumnsOk schema) then
            ⟨.badRequest "Dataset has invalid schema — re-upload the CSV", db, false⟩
          else
            match up with
            | .timeout =>
              ⟨.gatewayTimeout "AI Service Timeout — try again later", db, true⟩
            | .connRefused =>
              ⟨.serviceUnavailable "AI Service Unavailable — Python service is not running",
               db, true⟩
            | .otherFault => ⟨.serverError "Internal server error", db, true⟩
            | .success r =>
              let entry : ChatHistoryEntry :=
                ⟨db.next_history_id, uid, did, q,
                 some ((r.answer).getD ""), some ((r.code).getD ""), now⟩
              ⟨.ok ⟨r.answer, jsOrJson r.data (.obj []), (r.code).getD "",
                    jsOrNullStr r.chart_type⟩,
               { db with chat_history := db.chat_history ++ [entry],
                         next_history_id := db.next_history_id + 1 },
               true⟩

/-- A row of the `GET /api/history` response (chat.js lines 98-105): the
selected `chat_history` columns joined with the owning dataset's name. -/
structure HistRow where
  id : Nat
  query : String
  response : Option String
  code : Option String
  created_at : Nat
  dataset_name : String
deriving DecidableEq, Repr

def mkHistRow (ch : ChatHistoryEntry) (d : Dataset) : HistRow :=
  ⟨ch.id, ch.query, ch.response, ch.code, ch.created_at, d.original_name⟩

/-- SQL `ORDER BY ch.created_at DESC` comparison on joined rows. -/
def byCreatedDesc (a b : ChatHistoryEntry × Dataset) : Prop :=
  b.1.created_at ≤ a.1.created_at

instance : DecidableRel byCreatedDesc := fun _ _ => Nat.decLe _ _

instance : IsTotal (ChatHistoryEntry × Dataset) byCreatedDesc :=
  ⟨fun a b => Nat.le_total b.1.created_at a.1.created_at⟩

instance : IsTrans (ChatHistoryEntry × Dataset) byCreatedDesc :=
  ⟨fun _ _ _ h1 h2 => Nat.le_trans h2 h1⟩

/-- SQL `FROM chat_history ch JOIN datasets d ON ch.dataset_id = d.id`. -/
def joinHistory (chs : List ChatHistoryEntry) (ds : List Dataset) :
    List (ChatHistoryEntry × Dataset) :=
  chs.flatMap (fun ch => (ds.filter (fun d => d.id == ch.dataset_id)).map (fun d => (ch, d)))

/-- The `WHERE` clause: always `ch.user_id = ?`, plus `ch.dataset_id = ?` when
the query-string filter is present (a missing or empty filter is falsy). -/
def historyFilter (uid : Nat) (dsFilter : Option Nat) (p : ChatHistoryEntry × Dataset) : Bool :=
  p.1.user_id == uid &&
    (match dsFilter with
     | some dsId => p.1.dataset_id == dsId
     | none => true)

/-- Endpoint `GET /api/history` (chat.js lines 88-113): join, filter, order newest
first, `LIMIT 5`, project.  Ties in `created_at` keep rowid order (SQLite
leaves the order of ties unspecified; the theorems that depend on order use
distinct timestamps). -/
def historyGet (db : DB) (uid : Nat) (dsFilter : Option Nat) : List HistRow :=
  ((List.insertionSort byCreatedDesc
      ((joinHistory db.chat_history db.datasets).filter (historyFilter uid dsFilter))).take 5).map
    (fun p => mkHistRow p.1 p.2)

/-! ## Session issuer — `src/backend/routes/auth.js` -/

inductive LoginRes where
  | ok (userId : Nat) (username : String)
  | badRequest (msg : String)
  | unauthorized (msg : String)
deriving DecidableEq, Repr

/-- Endpoint `POST /api/auth/login` (auth.js lines 66-101).  `bcryptCompare` models
`bcrypt.compare(password, hash)`. -/
def loginPost (db : DB) (username password : Option String)
    (bcryptCompare : String → String → Bool) : LoginRes :=
  if jsFalsyStr username || jsFalsyStr password then
    .badRequest "Username and password are required"
  else
    let u := username.getD ""
    let p := password.getD ""
    match db.users.find? (fun usr => usr.username == u) with
    | none => .unauthorized "Invalid credentials"
    | some usr =>
      if !(bcryptCompare p usr.password_hash) then .unauthorized "Invalid credentials"
      else .ok usr.id usr.username

/-! ## Health probe — `src/backend/database/index.js` (server entry, lines
131-154) -/

structure HealthBody where
  status : String
  database : String
  python_service : String
  timestamp : String
deriving DecidableEq, Repr

/-- Endpoint `GET /api/health`: each collaborator check is a caught `try`, so the
handler always answers 200 with a full body.  `dbCheck` is the outcome of
`db.prepare('SELECT 1').get()`, `pyCheck` that of the 3-second `/health`
probe of the Python service. -/
def healthGet (dbCheck pyCheck : Except Unit Unit) (ts : String) : Nat × HealthBody :=
  let dbStatus := match dbCheck with | .ok _ => "connected" | .error _ => "error"
  let pythonStatus := match pyCheck with | .ok _ => "connected" | .error _ => "unavailable"
  (200, ⟨if dbStatus == "connected" then "ok" else "degraded", dbStatus, pythonStatus, ts⟩)

/-! ## Helper lemmas -/

theorem digitChar_ne_slash (n : Nat) : Nat.digitChar n ≠ '/' := by
  rcases Nat.lt_or_ge n 16 with h | h
  · interval_cases n <;> decide
  · have e0 : ¬(n = 0) := by omega
    have e1 : ¬(n = 1) := by omega
    have e2 : ¬(n = 2) := by omega
    have e3 : ¬(n = 3) := by omega
    have e4 : ¬(n = 4) := by omega
    have e5 : ¬(n = 5) := by omega
    have e6 : ¬(n = 6) := by omega
    have e7 : ¬(n = 7) := by omega
    have e8 : ¬(n = 8) := by omega
    have e9 : ¬(n = 9) := by omega
    have e10 : ¬(n = 10) := by omega
    have e11 : ¬(n = 11) := by omega
    have e12 : ¬(n = 12) := by omega
    have e13 : ¬(n = 13) := by omega
    have e14 : ¬(n = 14) := by omega
    have e15 : ¬(n = 15) := by omega
    have hstar : Nat.digitChar n = '*' := by
      unfold Nat.digitChar
      rw [if_neg e0, if_neg e1, if_neg e2, if_neg e3, if_neg e4, if_neg e5, if_neg e6,
          if_neg e7, if_neg e8, if_neg e9, if_neg e10, if_neg e11, if_neg e12, if_neg e13,
          if_neg e14, if_neg e15]
    rw [hstar]
    decide

theorem toDigitsCore_ne_slash :
    ∀ (fuel n : Nat) (ds : List Char), (∀ c ∈ ds, c ≠ '/') →
      ∀ c ∈ Nat.toDigitsCore 10 fuel n ds, c ≠ '/' := by
  intro fuel
  induction fuel with
  | zero => intro n ds h c hc; exact h c hc
  | succ fuel ih =>
    intro n ds h c hc
    have hcons : ∀ c' ∈ Nat.digitChar (n % 10) :: ds, c' ≠ '/' := by
      intro c' hc'
      rcases List.mem_cons.mp hc' with rfl | hm
      · exact digitChar_ne_slash _
      · exact h c' hm
    simp only [Nat.toDigitsCore] at hc
    split at hc
    · exact hcons c hc
    · exact ih _ _ hcons c hc

theorem repr_ne_slash (n : Nat) : ∀ c ∈ (Nat.repr n).data, c ≠ '/' := by
  intro c hc
  have hd : (Nat.repr n).data = Nat.toDigitsCore 10 (n + 1) n [] := rfl
  rw [hd] at hc
  exact toDigitsCore_ne_slash _ _ _ (by intro c' hc'; cases hc') c hc

theorem sanitizeName_ne_slash (s : String) : ∀ c ∈ (sanitizeName s).data, c ≠ '/' := by
  intro c hc
  have hc' : c ∈ s.data.map (fun c0 => if isAllowedFileChar c0 then c0 else '_') := hc
  rcases List.mem_map.mp hc' with ⟨c0, _, rfl⟩
  split
  · rename_i hall
    intro heq
    subst heq
    simp [isAllowedFileChar] at hall
  · decide

theorem uniqueName_ne_slash (ts : Nat) (orig : String) :
    ∀ c ∈ (uniqueName ts orig).data, c ≠ '/' := by
  intro c hc
  simp only [uniqueName, String.data_append] at hc
  rcases List.mem_append.mp hc with h | h
  · rcases List.mem_append.mp h with h1 | h1
    · exact repr_ne_slash ts c h1
    · have : c ∈ ['_'] := h1
      rcases List.mem_singleton.mp this with rfl
      decide
  · exact sanitizeName_ne_slash orig c h

theorem uniqueName_underscore (ts : Nat) (orig : String) :
    '_' ∈ (uniqueName ts orig).data := by
  simp only [uniqueName, String.data_append]
  refine List.mem_append.mpr (Or.inl (List.mem_append.mpr (Or.inr ?_)))
  exact List.mem_singleton.mpr rfl

theorem uniqueName_ne_empty (ts : Nat) (orig : String) : ¬(uniqueName ts orig = "") := by
  intro h
  have hu := uniqueName_underscore ts orig
  rw [congrArg String.data h] at hu
  cases hu

theorem uniqueName_ne_dot (ts : Nat) (orig : String) : ¬(uniqueName ts orig = ".") := by
  intro h
  have hu := uniqueName_underscore ts orig
  rw [congrArg String.data h] at hu
  revert hu
  decide

theorem uniqueName_ne_dotdot (ts : Nat) (orig : String) : ¬(uniqueName ts orig = "..") := by
  intro h
  have hu := uniqueName_underscore ts orig
  rw [congrArg String.data h] at hu
  revert hu
  decide

theorem splitOnChar_no_delim (delim : Char) :
    ∀ cs : List Char, (∀ c ∈ cs, c ≠ delim) → splitOnChar delim cs = [cs] := by
  intro cs
  induction cs with
  | nil => intro _; rfl
  | cons c rest ih =>
    intro h
    have hc : ¬(c = delim) := h c (List.mem_cons_self _ _)
    rw [splitOnChar, if_neg hc, ih (fun c' hc' => h c' (List.mem_cons_of_mem _ hc'))]

/-- Every stored upload path is the user's sandbox directory followed by the
single generated filename segment. -/
theorem storedPath_eq (uid ts : Nat) (orig : String) :
    storedPathSegs uid ts orig = userDirSegs uid ++ [uniqueName ts orig] := by
  unfold storedPathSegs
  rw [splitOnChar_no_delim '/' _ (uniqueName_ne_slash ts orig)]
  simp only [List.map]
  rw [resolveSegs, if_neg, if_neg (uniqueName_ne_dotdot ts orig), resolveSegs]
  rintro (h | h)
  · exact uniqueName_ne_empty ts orig h
  · exact uniqueName_ne_dot ts orig h

theorem segsStartWith_append (base t : List String) :
    segsStartWith base (base ++ t) = true := by
  induction base with
  | nil => rfl
  | cons b bs ih => simp [segsStartWith, ih]

/-- The file an upload request leaves on disk, if any, is the resolved path of
the request's own generated filename. -/
theorem uploadPost_stored_file (db : DB) (r : UploadReq) (flag : Bool) (p : List String)
    (hstore : (uploadPost db r flag).2.2 = some p) :
    p = storedPathSegs r.uid r.ts r.originalname := by
  unfold uploadPost at hstore
  split at hstore
  · cases hstore
  · split at hstore
    · cases hstore
    · simp only at hstore
      split at hstore
      · cases hstore
      · split at hstore
        · exact (Option.some.inj hstore).symm
        · split at hstore
          · exact (Option.some.inj hstore).symm
          · exact (Option.some.inj hstore).symm

/-! ## C2 -/

/-- C2: for every authenticated upload with any declared original filename
(traversal payloads included), the generated stored path resolves to a
descendant of that user's isolated directory `uploads/user_<id>`, the
handler's `startsWith` guard passes, and any file an upload request leaves on
disk lies inside the requesting user's sandbox — the sanitization branch of
the claim's disjunction always holds, so no file is ever stored outside the
sandbox root. -/
theorem c2_upload_path_sandbox (uid ts : Nat) (orig : String)
    (db : DB) (r : UploadReq) (flag : Bool) (p : List String)
    (hstore : (uploadPost db r flag).2.2 = some p) :
    segsStartWith (userDirSegs uid) (storedPathSegs uid ts orig) = true ∧
    segsStartWith (userDirSegs r.uid) p = true := by
  constructor
  · rw [storedPath_eq]
    exact segsStartWith_append _ _
  · rw [uploadPost_stored_file db r flag p hstore, storedPath_eq]
    exact segsStartWith_append _ _

/-- Witness for C2 at the claim's own traversal payload `../../evil.csv`. -/
theorem c2_upload_path_sandbox_witness :
    segsStartWith (userDirSegs 1) (storedPathSegs 1 42 "../../evil.csv") = true ∧
    segsStartWith (userDirSegs 1) ["backend", "uploads", "user_1", "42_.._.._evil.csv"] = true :=
  c2_upload_path_sandbox 1 42 "../../evil.csv" ⟨[], [], [], 1, 1⟩
    ⟨1, "../../evil.csv", "name,age\n1,2", 12, 42⟩ false
    ["backend", "uploads", "user_1", "42_.._.._evil.csv"] (by decide)

/-! ## C7 -/

/-- List `takeWhile` over `a ++ c :: b` does not depend on `b` when `p c` fails. -/
theorem takeWhile_cut_indep (p : Char → Bool) (c : Char) (hp : p c = false) :
    ∀ a b b' : List Char, (a ++ c :: b).takeWhile p = (a ++ c :: b').takeWhile p := by
  intro a
  induction a with
  | nil =>
    intro b b'
    simp [List.takeWhile_cons, hp]
  | cons x xs ih =>
    intro b b'
    simp only [List.cons_append, List.takeWhile_cons]
    cases hx : p x
    · rfl
    · rw [ih b b']

/-- C7: schema extraction looks only at the first line of the file (splitting
it on commas and trimming whitespace and surrounding quotes from each field):
text after the first newline never changes the result; the header
`name,age,city` yields exactly those columns (also with quoted and padded
fields); and an upload whose first line is empty is rejected with the 400
`ValidationError` response `CSV has no valid column headers`. -/
theorem c7_extract_schema :
    (∀ h r r' : String, extractSchema (h ++ "\n" ++ r) = extractSchema (h ++ "\n" ++ r')) ∧
    extractSchema "name,age,city\n1,2,3" = ⟨["name", "age", "city"]⟩ ∧
    extractSchema " \"name\" ,\tage ,city " = ⟨["name", "age", "city"]⟩ ∧
    (∀ (db : DB) (r : UploadReq) (flag : Bool),
      jsEndsWith (jsToLower r.originalname) ".csv" = true →
      r.size ≤ MAX_FILE_SIZE →
      firstLine r.content = "" →
      (uploadPost db r flag).1 = .badRequest "CSV has no valid column headers") := by
  refine ⟨?_, by decide, by decide, ?_⟩
  · intro h r r'
    unfold extractSchema firstLine
    have hdata : ∀ t : String, (h ++ "\n" ++ t).data = h.data ++ '\n' :: t.data := by
      intro t
      simp [String.data_append]
    rw [hdata r, hdata r', takeWhile_cut_indep _ '\n' (by decide) h.data r.data r'.data]
  · intro db r flag hcsv hsize hfl
    have hsch : extractSchema r.content = ⟨[""]⟩ := by
      unfold extractSchema
      rw [hfl]
      decide
    unfold uploadPost
    rw [hcsv, hsch]
    simp only [Bool.not_true, Bool.false_eq_true, if_false, if_neg (Nat.not_lt.mpr hsize)]
    rw [storedPath_eq, if_neg]
    · rw [if_pos]
      simp
    · rw [segsStartWith_append]
      decide

/-- Witness for C7: an upload whose file starts with an empty line is
rejected with the schema validation message. -/
theorem c7_extract_schema_witness :
    (uploadPost ⟨[], [], [], 1, 1⟩ ⟨3, "empty.csv", "\nrow", 4, 5⟩ false).1 =
      .badRequest "CSV has no valid column headers" :=
  c7_extract_schema.2.2.2 ⟨[], [], [], 1, 1⟩ ⟨3, "empty.csv", "\nrow", 4, 5⟩ false
    (by decide) (by decide) (by decide)

/-! ## C3 -/

/-- C3 counterexample: an authenticated upload of `a.csv` whose content is
empty writes the file, fails schema extraction with the 400 response and
leaves no Dataset record — but the handler does not delete the stored file:
it remains at `backend/uploads/user_7/9_a.csv`, contradicting the claim that
the orphaned file is deleted. -/
theorem c3_orphan_not_deleted_cex :
    (uploadPost ⟨[], [], [], 1, 1⟩ ⟨7, "a.csv", "", 5, 9⟩ false).1 =
      .badRequest "CSV has no valid column headers" ∧
    (uploadPost ⟨[], [], [], 1, 1⟩ ⟨7, "a.csv", "", 5, 9⟩ false).2.1 =
      ⟨[], [], [], 1, 1⟩ ∧
    (uploadPost ⟨[], [], [], 1, 1⟩ ⟨7, "a.csv", "", 5, 9⟩ false).2.2 =
      some ["backend", "uploads", "user_7", "9_a.csv"] := by
  refine ⟨by decide, by decide, by decide⟩

/-- C3 amended: when schema extraction fails (empty or headerless schema) or
metadata persistence fails after the file has been written, the caller gets an
error and no Dataset record is created — but the orphaned file is NOT
deleted: it remains stored (inside the user's sandbox); the only deleting
branch of the handler is the path-guard `SecurityError` branch. -/
theorem c3_upload_failure_keeps_file (db : DB) (r : UploadReq) (flag : Bool)
    (hcsv : jsEndsWith (jsToLower r.originalname) ".csv" = true)
    (hsize : r.size ≤ MAX_FILE_SIZE) :
    (((extractSchema r.content).columns.isEmpty ∨
        (extractSchema r.content).columns.head? = some "") →
      uploadPost db r flag =
        (.badRequest "CSV has no valid column headers", db,
         some (storedPathSegs r.uid r.ts r.originalname))) ∧
    (¬((extractSchema r.content).columns.isEmpty ∨
        (extractSchema r.content).columns.head? = some "") →
      flag = true →
      uploadPost db r flag =
        (.serverError "Failed to process upload", db,
         some (storedPathSegs r.uid r.ts r.originalname))) := by
  have hguard : segsStartWith (userDirSegs r.uid) (storedPathSegs r.uid r.ts r.originalname)
      = true := by
    rw [storedPath_eq]
    exact segsStartWith_append _ _
  constructor
  · intro hbad
    unfold uploadPost
    rw [hcsv]
    simp only [Bool.not_true, Bool.false_eq_true, if_false, if_neg (Nat.not_lt.mpr hsize)]
    rw [hguard]
    simp only [Bool.not_true, Bool.false_eq_true, if_false, if_pos hbad]
  · intro hgood hflag
    unfold uploadPost
    rw [hcsv]
    simp only [Bool.not_true, Bool.false_eq_true, if_false, if_neg (Nat.not_lt.mpr hsize)]
    rw [hguard]
    simp only [Bool.not_true, Bool.false_eq_true, if_false, if_neg hgood, hflag, if_true]

/-- Witness for the amended C3 at a concrete failing upload. -/
theorem c3_upload_failure_keeps_file_witness :
    uploadPost ⟨[], [], [], 4, 4⟩ ⟨2, "b.csv", "\n1,2", 6, 11⟩ false =
      (.badRequest "CSV has no valid column headers", ⟨[], [], [], 4, 4⟩,
       some (storedPathSegs 2 11 "b.csv")) :=
  (c3_upload_failure_keeps_file ⟨[], [], [], 4, 4⟩ ⟨2, "b.csv", "\n1,2", 6, 11⟩ false
    (by decide) (by decide)).1 (by decide)

/-! ## Chat handler reduction -/

/-- A valid ask-question request on a dataset the lookup returns reduces to
the schema-decoding continuation of the handler. -/
theorem chatPost_reduce (db : DB) (uid did : Nat) (q : String) (up : Upstream) (now : Nat)
    (d : Dataset)
    (hdid : did ≠ 0) (hq0 : strIsEmpty q = false) (hq1 : strIsEmpty (jsTrim q) = false)
    (hq2 : q.length ≤ 500)
    (hfind : db.datasets.find? (fun x => x.id == did && x.user_id == uid) = some d) :
    chatPost db uid (some did) (some q) up now =
      match parseJson (jsParseArg d.schema_json) with
      | none => ⟨.serverError "Internal server error", db, false⟩
      | some schema =>
        if !(schemaColumnsOk schema) then
          ⟨.badRequest "Dataset has invalid schema — re-upload the CSV", db, false⟩
        else
          match up with
          | .timeout => ⟨.gatewayTimeout "AI Service Timeout — try again later", db, true⟩
          | .connRefused =>
            ⟨.serviceUnavailable "AI Service Unavailable — Python service is not running",
             db, true⟩
          | .otherFault => ⟨.serverError "Internal server error", db, true⟩
          | .success r =>
            ⟨.ok ⟨r.answer, jsOrJson r.data (.obj []), (r.code).getD "",
                  jsOrNullStr r.chart_type⟩,
             { db with
               chat_history := (db.chat_history ++
                 [⟨db.next_history_id, uid, did, q, some ((r.answer).getD ""),
                   some ((r.code).getD ""), now⟩]),
               next_history_id := db.next_history_id + 1 },
             true⟩ := by
  unfold chatPost
  have hd0 : (did == 0) = false := by simp [hdid]
  simp only [jsFalsyNat, jsFalsyStr, hd0, hq0, Bool.or_self, Bool.false_eq_true, if_false,
    Option.getD_some, hq1, if_neg (Nat.not_lt.mpr hq2), hfind]

/-! ## C4 -/

/-- C4: for a valid ask-question request on an owned dataset with a decodable,
well-shaped schema, a ChatHistoryEntry is persisted exactly when the upstream
round-trip succeeds: success appends exactly one row carrying the owner,
dataset id, question, answer-or-empty and code-or-empty; a timeout answers 504
`UpstreamTimeoutError` with the database unchanged; a refused connection
answers 503 `UpstreamUnavailableError` with the database unchanged; any other
fault answers 500 `InternalError` with the database unchanged. -/
theorem c4_history_iff_upstream_success (db : DB) (uid did : Nat) (q : String) (now : Nat)
    (d : Dataset) (j : Json) (r : AnalyzeResponse)
    (hdid : did ≠ 0) (hq0 : strIsEmpty q = false) (hq1 : strIsEmpty (jsTrim q) = false)
    (hq2 : q.length ≤ 500)
    (hfind : db.datasets.find? (fun x => x.id == did && x.user_id == uid) = some d)
    (hparse : parseJson (jsParseArg d.schema_json) = some j)
    (hok : schemaColumnsOk j = true) :
    (chatPost db uid (some did) (some q) (.success r) now).db.chat_history =
        db.chat_history ++
          [⟨db.next_history_id, uid, did, q, some ((r.answer).getD ""),
            some ((r.code).getD ""), now⟩] ∧
    (chatPost db uid (some did) (some q) (.success r) now).res =
        .ok ⟨r.answer, jsOrJson r.data (.obj []), (r.code).getD "", jsOrNullStr r.chart_type⟩ ∧
    chatPost db uid (some did) (some q) .timeout now =
        ⟨.gatewayTimeout "AI Service Timeout — try again later", db, true⟩ ∧
    chatPost db uid (some did) (some q) .connRefused now =
        ⟨.serviceUnavailable "AI Service Unavailable — Python service is not running",
         db, true⟩ ∧
    chatPost db uid (some did) (some q) .otherFault now =
        ⟨.serverError "Internal server error", db, true⟩ := by
  have hred := fun up => chatPost_reduce db uid did q up now d hdid hq0 hq1 hq2 hfind
  refine ⟨?_, ?_, ?_, ?_, ?_⟩ <;>
    rw [hred] <;>
    simp only [hparse, hok, Bool.not_true, Bool.false_eq_true, if_false]

/-- Witness for C4: a simulated successful analysis call writes exactly one
new history row at a concrete database. -/
theorem c4_history_iff_upstream_success_witness :
    (chatPost ⟨[], [⟨1, 1, [], "f.csv", some "\x7b\"columns\":[\"a\"]\x7d", 0⟩], [], 2, 1⟩ 1
        (some 1) (some "hi") (.success ⟨some "ans", none, some "c", none⟩) 3).db.chat_history =
      [] ++ [⟨1, 1, 1, "hi", some "ans", some "c", 3⟩] :=
  (c4_history_iff_upstream_success
    ⟨[], [⟨1, 1, [], "f.csv", some "\x7b\"columns\":[\"a\"]\x7d", 0⟩], [], 2, 1⟩ 1 1 "hi" 3
    ⟨1, 1, [], "f.csv", some "\x7b\"columns\":[\"a\"]\x7d", 0⟩
    (.obj [("columns", .arr [.str "a"])]) ⟨some "ans", none, some "c", none⟩
    (by decide) (by decide) (by decide) (by decide) (by decide) (by rfl) (by rfl)).1

/-! ## C5 -/

/-- C5 counterexample: a dataset owned by the caller whose stored schema
document is the undecodable text `not json` makes the ask-question operation
fail with the 500 `InternalError` response — not the 400 `ValidationError`
the claim states — though indeed without contacting the upstream service. -/
theorem c5_undecodable_schema_cex :
    (chatPost ⟨[], [⟨1, 1, [], "f.csv", some "not json", 0⟩], [], 2, 1⟩ 1
        (some 1) (some "hi") .timeout 0).res = .serverError "Internal server error" ∧
    (chatPost ⟨[], [⟨1, 1, [], "f.csv", some "not json", 0⟩], [], 2, 1⟩ 1
        (some 1) (some "hi") .timeout 0).upstreamCalled = false ∧
    (chatPost ⟨[], [⟨1, 1, [], "f.csv", some "not json", 0⟩], [], 2, 1⟩ 1
        (some 1) (some "hi") .timeout 0).db =
      ⟨[], [⟨1, 1, [], "f.csv", some "not json", 0⟩], [], 2, 1⟩ ∧
    ∀ msg, (chatPost ⟨[], [⟨1, 1, [], "f.csv", some "not json", 0⟩], [], 2, 1⟩ 1
        (some 1) (some "hi") .timeout 0).res ≠ .badRequest msg := by
  refine ⟨rfl, rfl, rfl, ?_⟩
  intro msg h
  rw [show (chatPost ⟨[], [⟨1, 1, [], "f.csv", some "not json", 0⟩], [], 2, 1⟩ 1
        (some 1) (some "hi") .timeout 0).res = .serverError "Internal server error"
      from rfl] at h
  exact ChatRes.noConfusion h

/-- C5 amended: for a valid ask-question request on an owned dataset, a
stored schema that decodes but is missing, not an object with a `columns`
array, or has zero columns fails with the 400 `ValidationError` re-upload
response and no upstream call; but a stored schema document that cannot be
decoded at all fails with the 500 `InternalError` response — likewise with no
upstream call and no state change. -/
theorem c5_schema_validation (db : DB) (uid did : Nat) (q : String) (up : Upstream)
    (now : Nat) (d : Dataset)
    (hdid : did ≠ 0) (hq0 : strIsEmpty q = false) (hq1 : strIsEmpty (jsTrim q) = false)
    (hq2 : q.length ≤ 500)
    (hfind : db.datasets.find? (fun x => x.id == did && x.user_id == uid) = some d) :
    (parseJson (jsParseArg d.schema_json) = none →
      chatPost db uid (some did) (some q) up now =
        ⟨.serverError "Internal server error", db, false⟩) ∧
    (∀ j, parseJson (jsParseArg d.schema_json) = some j → schemaColumnsOk j = false →
      chatPost db uid (some did) (some q) up now =
        ⟨.badRequest "Dataset has invalid schema — re-upload the CSV", db, false⟩) := by
  have hred := chatPost_reduce db uid did q up now d hdid hq0 hq1 hq2 hfind
  constructor
  · intro hnone
    rw [hred, hnone]
  · intro j hsome hbad
    rw [hred, hsome]
    simp only [hbad, Bool.not_false, if_true]

/-- Witness for the amended C5: a `NULL` stored schema decodes to JSON `null`
and is rejected with the re-upload `ValidationError`. -/
theorem c5_schema_validation_witness :
    chatPost ⟨[], [⟨1, 1, [], "f.csv", none, 0⟩], [], 2, 1⟩ 1 (some 1) (some "hi") .timeout 0 =
      ⟨.badRequest "Dataset has invalid schema — re-upload the CSV",
       ⟨[], [⟨1, 1, [], "f.csv", none, 0⟩], [], 2, 1⟩, false⟩ :=
  (c5_schema_validation ⟨[], [⟨1, 1, [], "f.csv", none, 0⟩], [], 2, 1⟩ 1 1 "hi" .timeout 0
    ⟨1, 1, [], "f.csv", none, 0⟩
    (by decide) (by decide) (by decide) (by decide) (by decide)).2
    .null (by rfl) (by rfl)

/-! ## C9 -/

/-- C9: every row of the history table after an ask-question request either
was already present or was written by the request's insert, and in the latter
case both nullable columns hold actual (possibly empty) strings — the insert
passes `answer || ''` and `code || ''`, so rows written by the query operation
never hold NULL. -/
theorem c9_history_nonnull (db : DB) (uid : Nat) (dataset_id : Option Nat)
    (question : Option String) (up : Upstream) (now : Nat) (e : ChatHistoryEntry)
    (he : e ∈ (chatPost db uid dataset_id question up now).db.chat_history) :
    e ∈ db.chat_history ∨ ((∃ s, e.response = some s) ∧ (∃ s, e.code = some s)) := by
  unfold chatPost at he
  split at he
  · exact Or.inl he
  · simp only at he
    split at he
    · exact Or.inl he
    · split at he
      · exact Or.inl he
      · split at he
        · exact Or.inl he
        · split at he
          · exact Or.inl he
          · split at he
            · exact Or.inl he
            · split at he
              · exact Or.inl he
              · exact Or.inl he
              · exact Or.inl he
              · simp only at he
                rcases List.mem_append.mp he with h | h
                · exact Or.inl h
                · rcases List.mem_singleton.mp h with rfl
                  exact Or.inr ⟨⟨_, rfl⟩, ⟨_, rfl⟩⟩

/-- Witness for C9 at the row written by a concrete successful query. -/
theorem c9_history_nonnull_witness :
    (⟨1, 1, 1, "hi", some "ans", some "c", 3⟩ : ChatHistoryEntry) ∈
        (⟨[], [⟨1, 1, [], "f.csv", some "\x7b\"columns\":[\"a\"]\x7d", 0⟩], [], 2, 1⟩ : DB).chat_history ∨
      ((∃ s, (⟨1, 1, 1, "hi", some "ans", some "c", 3⟩ : ChatHistoryEntry).response = some s) ∧
       (∃ s, (⟨1, 1, 1, "hi", some "ans", some "c", 3⟩ : ChatHistoryEntry).code = some s)) :=
  c9_history_nonnull ⟨[], [⟨1, 1, [], "f.csv", some "\x7b\"columns\":[\"a\"]\x7d", 0⟩], [], 2, 1⟩
    1 (some 1) (some "hi") (.success ⟨some "ans", none, some "c", none⟩) 3
    ⟨1, 1, 1, "hi", some "ans", some "c", 3⟩ (by decide)

/-! ## C8 -/

/-- C8: for login attempts with both fields present, an unknown login
identifier and a known identifier with a failing digest comparison produce
the same observable error — the identical 401 `AuthError` response
`Invalid credentials` — so the response does not reveal whether the user
exists. -/
theorem c8_login_uniform_error (db1 db2 : DB) (u1 p1 u2 p2 : String)
    (cmp1 cmp2 : String → String → Bool) (usr2 : User)
    (h1 : strIsEmpty u1 = false) (h2 : strIsEmpty p1 = false)
    (h3 : strIsEmpty u2 = false) (h4 : strIsEmpty p2 = false)
    (hunknown : db1.users.find? (fun usr => usr.username == u1) = none)
    (hknown : db2.users.find? (fun usr => usr.username == u2) = some usr2)
    (hbad : cmp2 p2 usr2.password_hash = false) :
    loginPost db1 (some u1) (some p1) cmp1 = .unauthorized "Invalid credentials" ∧
    loginPost db2 (some u2) (some p2) cmp2 = .unauthorized "Invalid credentials" ∧
    loginPost db1 (some u1) (some p1) cmp1 = loginPost db2 (some u2) (some p2) cmp2 := by
  have e1 : loginPost db1 (some u1) (some p1) cmp1 = .unauthorized "Invalid credentials" := by
    unfold loginPost
    simp only [jsFalsyStr, h1, h2, Bool.or_self, Bool.false_eq_true, if_false,
      Option.getD_some, hunknown]
  have e2 : loginPost db2 (some u2) (some p2) cmp2 = .unauthorized "Invalid credentials" := by
    unfold loginPost
    simp only [jsFalsyStr, h3, h4, Bool.or_self, Bool.false_eq_true, if_false,
      Option.getD_some, hknown, hbad, Bool.not_false, if_true]
  exact ⟨e1, e2, e1.trans e2.symm⟩

/-- Witness for C8: a concrete unknown user and a concrete known user with a
failing comparison receive the identical response. -/
theorem c8_login_uniform_error_witness :
    loginPost ⟨[], [], [], 1, 1⟩ (some "ghost") (some "secret1") (fun _ _ => true) =
        .unauthorized "Invalid credentials" ∧
    loginPost ⟨[⟨1, "alice", "hash", 0⟩], [], [], 1, 1⟩ (some "alice") (some "wrongpw")
        (fun _ _ => false) = .unauthorized "Invalid credentials" ∧
    loginPost ⟨[], [], [], 1, 1⟩ (some "ghost") (some "secret1") (fun _ _ => true) =
      loginPost ⟨[⟨1, "alice", "hash", 0⟩], [], [], 1, 1⟩ (some "alice") (some "wrongpw")
        (fun _ _ => false) :=
  c8_login_uniform_error ⟨[], [], [], 1, 1⟩ ⟨[⟨1, "alice", "hash", 0⟩], [], [], 1, 1⟩
    "ghost" "secret1" "alice" "wrongpw" (fun _ _ => true) (fun _ _ => false)
    ⟨1, "alice", "hash", 0⟩
    (by decide) (by decide) (by decide) (by decide) (by decide) (by decide) (by rfl)

/-! ## C10 -/

/-- C10: the public health probe is total — for every combination of
relational-store and analysis-service reachability it answers 200 with a full
body whose overall status is `ok` exactly when the store check succeeds and
`degraded` otherwise, whose per-collaborator fields report reachability, and
whose timestamp echoes the probe instant; collaborator failures never escape
the handler. -/
theorem c10_health_total (dbCheck pyCheck : Except Unit Unit) (ts : String) :
    (healthGet dbCheck pyCheck ts).1 = 200 ∧
    ((healthGet dbCheck pyCheck ts).2.status = "ok" ↔ dbCheck.isOk = true) ∧
    ((healthGet dbCheck pyCheck ts).2.status = "degraded" ↔ dbCheck.isOk = false) ∧
    ((healthGet dbCheck pyCheck ts).2.database = "connected" ↔ dbCheck.isOk = true) ∧
    ((healthGet dbCheck pyCheck ts).2.database = "error" ↔ dbCheck.isOk = false) ∧
    ((healthGet dbCheck pyCheck ts).2.python_service = "connected" ↔ pyCheck.isOk = true) ∧
    ((healthGet dbCheck pyCheck ts).2.python_service = "unavailable" ↔ pyCheck.isOk = false) ∧
    (healthGet dbCheck pyCheck ts).2.timestamp = ts := by
  cases dbCheck <;> cases pyCheck <;>
    simp [healthGet, Except.isOk, Except.toBool]

/-! ## C6 -/

/-- C6: the history read returns at most 5 rows; every returned row is one of
the calling user's history entries (matching the dataset filter when one is
given) joined with the owning dataset's display name; rows come newest first;
and after 6 sequential successful queries on the same dataset the history
read returns exactly the 5 most recent rows, newest first (their timestamps
are 6,5,4,3,2). -/
theorem c6_history_read (db : DB) (uid : Nat) (f : Option Nat) :
    (historyGet db uid f).length ≤ 5 ∧
    (∀ row ∈ historyGet db uid f, ∃ ch, ch ∈ db.chat_history ∧ ∃ d, d ∈ db.datasets ∧
        ch.user_id = uid ∧ d.id = ch.dataset_id ∧
        (∀ dsId, f = some dsId → ch.dataset_id = dsId) ∧ row = mkHistRow ch d) ∧
    List.Sorted (fun a b : HistRow => b.created_at ≤ a.created_at) (historyGet db uid f) ∧
    ((historyGet (List.foldl (fun acc t => (chatPost acc 1 (some 1) (some "q")
          (.success ⟨some "ans", none, some "c", none⟩) t).db)
        (⟨[⟨1, "alice", "h", 0⟩],
          [⟨1, 1, ["backend", "uploads", "user_1", "f.csv"], "f.csv",
            some "\x7b\"columns\":[\"a\"]\x7d", 0⟩], [], 2, 1⟩ : DB)
        [1, 2, 3, 4, 5, 6]) 1 (some 1)).map HistRow.created_at = [6, 5, 4, 3, 2]) := by
  refine ⟨?_, ?_, ?_, by decide⟩
  · unfold historyGet
    simp only [List.length_map, List.length_take]
    omega
  · intro row hr
    unfold historyGet at hr
    rcases List.mem_map.mp hr with ⟨p, hp, rfl⟩
    have hp2 : p ∈ List.insertionSort byCreatedDesc
        ((joinHistory db.chat_history db.datasets).filter (historyFilter uid f)) :=
      List.mem_of_mem_take hp
    rw [List.mem_insertionSort] at hp2
    rcases List.mem_filter.mp hp2 with ⟨hjoin, hfil⟩
    rcases List.mem_flatMap.mp hjoin with ⟨ch, hch, hmem⟩
    rcases List.mem_map.mp hmem with ⟨d, hd, hpd⟩
    rcases List.mem_filter.mp hd with ⟨hd2, hdid⟩
    subst hpd
    simp only [historyFilter, Bool.and_eq_true, beq_iff_eq] at hfil hdid
    refine ⟨ch, hch, d, hd2, hfil.1, hdid, ?_, rfl⟩
    intro dsId hf
    subst hf
    have := hfil.2
    simp only [beq_iff_eq] at this
    exact this
  · unfold historyGet
    have hs : List.Sorted byCreatedDesc (List.insertionSort byCreatedDesc
        ((joinHistory db.chat_history db.datasets).filter (historyFilter uid f))) :=
      List.sorted_insertionSort byCreatedDesc _
    have hs2 := List.Pairwise.sublist (List.take_sublist 5 _) hs
    exact List.Pairwise.map _ (fun a b h => h) hs2

/-- Witness for C6: the newest row returned after the 6-query scenario is one
of the caller's entries joined with the owning dataset's name. -/
theorem c6_history_read_witness :
    ∃ ch, ch ∈ (List.foldl (fun acc t => (chatPost acc 1 (some 1) (some "q")
          (.success ⟨some "ans", none, some "c", none⟩) t).db)
        (⟨[⟨1, "alice", "h", 0⟩],
          [⟨1, 1, ["backend", "uploads", "user_1", "f.csv"], "f.csv",
            some "\x7b\"columns\":[\"a\"]\x7d", 0⟩], [], 2, 1⟩ : DB)
        [1, 2, 3, 4, 5, 6]).chat_history ∧
      ∃ d, d ∈ (List.foldl (fun acc t => (chatPost acc 1 (some 1) (some "q")
          (.success ⟨some "ans", none, some "c", none⟩) t).db)
        (⟨[⟨1, "alice", "h", 0⟩],
          [⟨1, 1, ["backend", "uploads", "user_1", "f.csv"], "f.csv",
            some "\x7b\"columns\":[\"a\"]\x7d", 0⟩], [], 2, 1⟩ : DB)
        [1, 2, 3, 4, 5, 6]).datasets ∧
        ch.user_id = 1 ∧ d.id = ch.dataset_id ∧
        (∀ dsId, (some 1 : Option Nat) = some dsId → ch.dataset_id = dsId) ∧
        (⟨6, "q", some "ans", some "c", 6, "f.csv"⟩ : HistRow) = mkHistRow ch d :=
  (c6_history_read (List.foldl (fun acc t => (chatPost acc 1 (some 1) (some "q")
          (.success ⟨some "ans", none, some "c", none⟩) t).db)
        (⟨[⟨1, "alice", "h", 0⟩],
          [⟨1, 1, ["backend", "uploads", "user_1", "f.csv"], "f.csv",
            some "\x7b\"columns\":[\"a\"]\x7d", 0⟩], [], 2, 1⟩ : DB)
        [1, 2, 3, 4, 5, 6]) 1 (some 1)).2.1
    ⟨6, "q", some "ans", some "c", 6, "f.csv"⟩ (by decide)

/-! ## C1 -/

/-- A valid ask-question request whose owner-filtered lookup comes back empty
answers 404 with no state change and no upstream call. -/
theorem chatPost_not_found (db : DB) (uid did : Nat) (q : String) (up : Upstream) (now : Nat)
    (hdid : did ≠ 0) (hq0 : strIsEmpty q = false) (hq1 : strIsEmpty (jsTrim q) = false)
    (hq2 : q.length ≤ 500)
    (hfind : db.datasets.find? (fun x => x.id == did && x.user_id == uid) = none) :
    chatPost db uid (some did) (some q) up now =
      ⟨.notFound "Dataset not found", db, false⟩ := by
  unfold chatPost
  have hd0 : (did == 0) = false := by simp [hdid]
  simp only [jsFalsyNat, jsFalsyStr, hd0, hq0, Bool.or_self, Bool.false_eq_true, if_false,
    Option.getD_some, hq1, if_neg (Nat.not_lt.mpr hq2), hfind]

/-- Every row of a successful dataset listing stems from a source row. -/
theorem parseListRows_mem {l : List Dataset} {rows : List DatasetListRow}
    (h : parseListRows l = some rows) :
    ∀ row ∈ rows, ∃ dd ∈ l, row.id = dd.id ∧ row.original_name = dd.original_name := by
  induction l generalizing rows with
  | nil =>
    intro row hr
    simp only [parseListRows, Option.some.injEq] at h
    subst h
    cases hr
  | cons dd rest ih =>
    intro row hr
    simp only [parseListRows] at h
    cases hj : parseJson (jsParseArg dd.schema_json) with
    | none => rw [hj] at h; cases h
    | some j =>
      rw [hj] at h
      cases hrest : parseListRows rest with
      | none => rw [hrest] at h; cases h
      | some rows' =>
        rw [hrest] at h
        rcases Option.some.inj h with rfl
        rcases List.mem_cons.mp hr with rfl | hm
        · exact ⟨dd, List.mem_cons_self _ _, rfl, rfl⟩
        · rcases ih hrest row hm with ⟨dd', hdd', h1, h2⟩
          exact ⟨dd', List.mem_cons_of_mem _ hdd', h1, h2⟩

/-- C1: for distinct users A and B, a dataset created by A is never contained
in the dataset listing, the ask-question operation, or the history read
performed as B.  The listing only surfaces B's rows; asking a question with
A's valid dataset id answers exactly the uniform 404 `Dataset not found` with
no state change and no upstream call — and any identifier without a dataset
owned by B (absent or owned by someone else) receives that identical
response; and every history row returned to B joins one of B's entries with a
dataset owned by B. -/
theorem c1_tenant_isolation (db : DB) (A B : Nat) (d : Dataset) (q : String)
    (up : Upstream) (now : Nat) (f : Option Nat)
    (hd : d ∈ db.datasets) (hA : d.user_id = A) (hAB : A ≠ B)
    (hids : (db.datasets.map Dataset.id).Nodup)
    (hdid0 : d.id ≠ 0)
    (hq0 : strIsEmpty q = false) (hq1 : strIsEmpty (jsTrim q) = false)
    (hq2 : q.length ≤ 500)
    (hinv : ∀ ch ∈ db.chat_history, ch.user_id = B →
        ∀ d' ∈ db.datasets, d'.id = ch.dataset_id → d'.user_id = B) :
    (∀ rows, listDatasets db B = some rows → ∀ row ∈ rows, row.id ≠ d.id) ∧
    chatPost db B (some d.id) (some q) up now =
      ⟨.notFound "Dataset not found", db, false⟩ ∧
    (∀ did, did ≠ 0 → (∀ d' ∈ db.datasets, d'.id = did → d'.user_id ≠ B) →
      chatPost db B (some did) (some q) up now =
        ⟨.notFound "Dataset not found", db, false⟩) ∧
    (∀ row ∈ historyGet db B f, ∃ ch, ch ∈ db.chat_history ∧ ∃ d', d' ∈ db.datasets ∧
        ch.user_id = B ∧ d'.user_id = B ∧ d'.id = ch.dataset_id ∧ row = mkHistRow ch d') := by
  have hinj := List.inj_on_of_nodup_map hids
  have hgen : ∀ did, did ≠ 0 → (∀ d' ∈ db.datasets, d'.id = did → d'.user_id ≠ B) →
      chatPost db B (some did) (some q) up now =
        ⟨.notFound "Dataset not found", db, false⟩ := by
    intro did hdid hnot
    apply chatPost_not_found db B did q up now hdid hq0 hq1 hq2
    rw [List.find?_eq_none]
    intro x hx hpx
    simp only [Bool.and_eq_true, beq_iff_eq] at hpx
    exact hnot x hx hpx.1 hpx.2
  refine ⟨?_, ?_, hgen, ?_⟩
  · intro rows hrows row hrow
    unfold listDatasets at hrows
    rcases parseListRows_mem hrows row hrow with ⟨d', hd', hid, _⟩
    rw [List.mem_insertionSort] at hd'
    rcases List.mem_filter.mp hd' with ⟨hmem, hB⟩
    simp only [beq_iff_eq] at hB
    intro hcontra
    rw [hid] at hcontra
    have hdd : d' = d := hinj hmem hd hcontra
    rw [hdd, hA] at hB
    exact hAB hB
  · refine hgen d.id hdid0 ?_
    intro d' hd' heq
    have hdd : d' = d := hinj hd' hd heq
    rw [hdd, hA]
    exact hAB
  · intro row hrow
    unfold historyGet at hrow
    rcases List.mem_map.mp hrow with ⟨p, hp, rfl⟩
    have hp2 := List.mem_of_mem_take hp
    rw [List.mem_insertionSort] at hp2
    rcases List.mem_filter.mp hp2 with ⟨hjoin, hfil⟩
    rcases List.mem_flatMap.mp hjoin with ⟨ch, hch, hmem⟩
    rcases List.mem_map.mp hmem with ⟨d', hd', hpd⟩
    rcases List.mem_filter.mp hd' with ⟨hd2, hdid⟩
    subst hpd
    simp only [historyFilter, Bool.and_eq_true, beq_iff_eq] at hfil hdid
    have huser : ch.user_id = B := hfil.1
    exact ⟨ch, hch, d', hd2, huser, hinv ch hch huser d' hd2 hdid, hdid, rfl⟩

/-- Witness for C1: user 2 asking about user 1's dataset receives the uniform
404 with nothing persisted and no upstream call. -/
theorem c1_tenant_isolation_witness :
    chatPost ⟨[], [⟨1, 1, [], "f.csv", none, 0⟩], [], 2, 1⟩ 2 (some 1) (some "hi") .timeout 0 =
      ⟨.notFound "Dataset not found", ⟨[], [⟨1, 1, [], "f.csv", none, 0⟩], [], 2, 1⟩, false⟩ :=
  (c1_tenant_isolation ⟨[], [⟨1, 1, [], "f.csv", none, 0⟩], [], 2, 1⟩ 1 2
    ⟨1, 1, [], "f.csv", none, 0⟩ "hi" .timeout 0 none
    (by decide) (by decide) (by decide) (by decide) (by decide) (by decide) (by decide)
    (by decide) (by intro ch hch; cases hch)).2.1

end Dataweb
